import Mathlib

/-!
# EZVenv — verification of the bootstrap/activation core (`ezvenv/core.py`)

Shallow embedding of the EZVenv virtual-environment manager.  Each Python
function of `ezvenv/core.py` is translated into an executable Lean function
over an explicit `World` (filesystem, environment variables, stdin, external
tool availability, external command results).  Side effects are recorded as an
`Event` trace and control flow (normal return / `sys.exit` / `os.execv`
process replacement / uncaught exception) is captured by `Outcome`.
-/

namespace EZVenv

/-- A parsed configuration document, restricted to the keys the program reads
and writes (a Python dict; `none` means the key is absent). -/
structure Config where
  envName : Option String := none
  envDir : Option String := none
  pythonVer : Option String := none
  autoInstall : Option Bool := none
  autoUpdate : Option Bool := none
  pkgManager : Option String := none
deriving Repr, DecidableEq

/-- The empty settings fragment (`{}` in Python). -/
def Config.empty : Config := {}

/-- Content of a file on disk, classified by how the two parsers react to it:
`jsonDoc c` is a valid JSON object document (also valid YAML), `yamlDoc c` is
valid YAML that is not valid JSON (e.g. the output of `yaml.dump`), `nullDoc`
parses to `None` under both parsers (the document `null`), `blankDoc` parses
to `None` under YAML but raises under JSON (an empty file), and `malformed`
raises under both. -/
inductive FileData where
  | jsonDoc (c : Config)
  | yamlDoc (c : Config)
  | nullDoc
  | blankDoc
  | malformed
deriving Repr, DecidableEq

/-- `json.load` on a file's content: returns the parsed document (possibly
`None`) or raises. -/
def parseJson : FileData → Except Unit (Option Config)
  | .jsonDoc c => .ok (some c)
  | .nullDoc => .ok none
  | _ => .error ()

/-- `yaml.safe_load` on a file's content: returns the parsed document
(possibly `None`) or raises. -/
def parseYaml : FileData → Except Unit (Option Config)
  | .jsonDoc c => .ok (some c)
  | .yamlDoc c => .ok (some c)
  | .nullDoc => .ok none
  | .blankDoc => .ok none
  | .malformed => .error ()

/-- The filesystem: regular files with their content, and directories with a
flag recording whether `os.listdir` returns a non-empty listing. -/
structure FS where
  files : List (String × FileData)
  dirs : List (String × Bool)
deriving Repr, DecidableEq

def FS.lookupFile (fs : FS) (p : String) : Option FileData :=
  fs.files.lookup p

def FS.isDir (fs : FS) (p : String) : Bool :=
  (fs.dirs.lookup p).isSome

/-- `os.path.exists`. -/
def FS.pathExists (fs : FS) (p : String) : Bool :=
  (fs.lookupFile p).isSome || fs.isDir p

/-- Whether `os.listdir p` is non-empty (the path is assumed to be a dir). -/
def FS.dirNonEmpty (fs : FS) (p : String) : Bool :=
  (fs.dirs.lookup p).getD false

/-- Writing (creating or truncating) a regular file. -/
def FS.writeFile (fs : FS) (p : String) (d : FileData) : FS :=
  ⟨(p, d) :: fs.files, fs.dirs⟩

/-- `os.makedirs p` creating a fresh, empty directory. -/
def FS.mkdir (fs : FS) (p : String) : FS :=
  ⟨fs.files, (p, false) :: fs.dirs⟩

/-- The process/world state: filesystem, environment variables, pending
interactive input lines, process identity (`os.getcwd`, `os.path.expanduser`,
`sys.executable`, `sys.argv`, `os.name`, `sys.version_info`), which external
tools `shutil.which` finds, which external commands exit non-zero, which
programs `os.execv` fails on, and which paths cannot be opened for writing. -/
structure World where
  fs : FS
  envVars : List (String × String)
  cwd : String
  stdinLines : List String
  homeDir : String
  sysExecutable : String
  sysArgv : List String
  osName : String
  pyMajor : Nat
  pyMinor : Nat
  pathTools : List String
  failingCmds : List (List String)
  execFails : List String
  roFiles : List String
deriving Repr, DecidableEq

/-- An observable side effect of a run. -/
inductive Event where
  | print (msg : String)
  | logInfo (msg : String)
  | logError (msg : String)
  | mkdirs (p : String)
  | chdir (p : String)
  | writeFile (p : String)
  | setEnv (k v : String)
  | run (cmd : List String)
  | execv (prog : String) (args : List String)
  | readInput
deriving Repr, DecidableEq

/-- How a piece of code finished: normal value, `sys.exit(code)`, successful
`os.execv` (process image replaced), or an uncaught exception. -/
inductive Outcome (α : Type) where
  | ok (val : α)
  | exited (code : Nat)
  | replaced (prog : String) (args : List String)
  | raised
deriving Repr, DecidableEq

/-- Result of running an embedded statement block: outcome, final world, and
the emitted event trace in order. -/
structure Step (α : Type) where
  out : Outcome α
  w : World
  tr : List Event
deriving Repr, DecidableEq

/-- Sequencing: run `r`; on normal completion feed its value and world to
`f`, concatenating traces; any abnormal outcome short-circuits. -/
def Step.andThen {α β : Type} (r : Step α) (f : α → World → Step β) : Step β :=
  match r.out with
  | .ok a => let s := f a r.w; ⟨s.out, s.w, r.tr ++ s.tr⟩
  | .exited c => ⟨.exited c, r.w, r.tr⟩
  | .replaced p as => ⟨.replaced p as, r.w, r.tr⟩
  | .raised => ⟨.raised, r.w, r.tr⟩

/-! ## Small OS-level helpers -/

/-- `os.path.join` (the claims are separator-agnostic; we use `/`). -/
def pathJoin (a b : String) : String := a ++ "/" ++ b

/-- Whether a path is absolute. -/
def isAbsPath (s : String) : Bool := s.data.take 1 == ['/']

/-- `os.path.abspath` relative to a current working directory. -/
def abspath (cwd s : String) : String :=
  if isAbsPath s then s else pathJoin cwd s

/-- Resolve a possibly-relative path against the world's cwd, as the OS calls
(`os.path.exists`, `os.listdir`, `os.chdir`, `open`) do. -/
def World.resolve (w : World) (p : String) : String := abspath w.cwd p

def World.getEnv (w : World) (k : String) : Option String :=
  w.envVars.lookup k

/-- `str.endswith`. -/
def strEndsWith (s suf : String) : Bool :=
  suf.data.length ≤ s.data.length &&
    s.data.drop (s.data.length - suf.data.length) == suf.data

/-- Characters Python's `str.strip` removes (ASCII whitespace). -/
def isSpaceChar (c : Char) : Bool :=
  c == ' ' || c == '\t' || c == '\n' || c == '\r'

/-- Python `str.strip()`. -/
def pyStrip (s : String) : String :=
  ⟨((s.data.dropWhile isSpaceChar).reverse.dropWhile isSpaceChar).reverse⟩

/-- Python `str.lower()` (ASCII). -/
def pyLower (s : String) : String := ⟨s.data.map Char.toLower⟩

/-- Python truthiness-based defaulting `x or d` for an optional string
argument (`None` and `""` are falsy). -/
def pyOrS : Option String → String → String
  | some s, d => if s == "" then d else s
  | none, d => d

/-- Substring test on char lists (`needle in haystack`). -/
def containsSub (needle : List Char) : List Char → Bool
  | [] => needle == []
  | c :: t => needle.isPrefixOf (c :: t) || containsSub needle (t : List Char)

/-- Python's `in` on strings. -/
def strContainsSub (hay needle : String) : Bool :=
  containsSub needle.data hay.data

/-- `os.pathsep`. -/
def pathSep (w : World) : String := if w.osName == "nt" then ";" else ":"

/-- `shutil.which name` finds the tool. -/
def which (w : World) (name : String) : Bool := w.pathTools.contains name

/-- `subprocess.run cmd check=True` succeeds (child exits zero). -/
def runOk (w : World) (cmd : List String) : Bool := !(w.failingCmds.contains cmd)

/-- `$HOME/.EZVenv` (module-level `CONFIG_DIR`). -/
def CONFIG_DIR (w : World) : String := pathJoin w.homeDir ".EZVenv"

/-! ## The `EZVenv` class -/

/-- The attributes of an `EZVenv` instance after `__init__`. -/
structure Inst where
  configFile : String
  config : Config
  envName : String
  envDir : String
  pythonVer : String
  envPath : String
  pkgManager : String
  autoInstall : Bool
  autoUpdate : Bool
  autoActivate : Bool
deriving Repr, DecidableEq

/-- `EZVenv.load_config` (core.py:65-89).  Opens the config file if it
exists, dispatches on the filename suffix (`.json` → `json.load`,
`.yaml`/`.yml` → `yaml.safe_load`, anything else → `config = {}` with no
parse), returns `config or {}`; any exception (parse error, or the path being
an unopenable directory) is caught, logged, and turned into `{}`.  The
return type records that it never raises and never exits. -/
def load_config (configFile : String) (w : World) : Config × List Event :=
  let path := w.resolve configFile
  match w.fs.lookupFile path with
  | some d =>
    if strEndsWith configFile ".json" then
      match parseJson d with
      | .ok c =>
        ((c.getD Config.empty),
         [.logInfo ("Configuration loaded from " ++ configFile)])
      | .error _ =>
        (Config.empty,
         [.logError "Error loading config file",
          .print "⚠️ Error reading config file. Using default settings."])
    else if strEndsWith configFile ".yaml" || strEndsWith configFile ".yml" then
      match parseYaml d with
      | .ok c =>
        ((c.getD Config.empty),
         [.logInfo ("Configuration loaded from " ++ configFile)])
      | .error _ =>
        (Config.empty,
         [.logError "Error loading config file",
          .print "⚠️ Error reading config file. Using default settings."])
    else
      (Config.empty, [.logInfo ("Configuration loaded from " ++ configFile)])
  | none =>
    if w.fs.isDir path then
      -- the path exists but `open` raises (e.g. IsADirectoryError): caught
      (Config.empty,
       [.logError "Error loading config file",
        .print "⚠️ Error reading config file. Using default settings."])
    else
      (Config.empty,
       [.logInfo ("No config file found at " ++ configFile ++
                  ". Using default settings.")])

/-- The six fields `EZVenv.save_config` persists, as a document. -/
def persistedOf (inst : Inst) : Config :=
  { envName := some inst.envName
    envDir := some inst.envDir
    pythonVer := some inst.pythonVer
    autoInstall := some inst.autoInstall
    autoUpdate := some inst.autoUpdate
    pkgManager := some inst.pkgManager }

/-- `EZVenv.save_config` (core.py:91-109).  Dumps the six persisted fields as
YAML to the config file; a write failure is caught, logged and reported
(fails soft). -/
def save_config (inst : Inst) (w : World) : World × List Event :=
  let path := w.resolve inst.configFile
  if w.roFiles.contains path then
    (w, [.logError "Failed to save configuration",
         .print "❌ Failed to save configuration."])
  else
    ({ w with fs := w.fs.writeFile path (.yamlDoc (persistedOf inst)) },
     [.writeFile path,
      .logInfo ("Configuration saved to " ++ inst.configFile)])

/-- `EZVenv.detect_pkg_manager` (core.py:111-126). -/
def detect_pkg_manager (w : World) (config : Config) : String :=
  let manager := config.pkgManager.getD "auto"
  if manager != "auto" then manager
  else if which w "poetry" then "poetry"
  else if which w "pipenv" then "pipenv"
  else "pip"

/-- `EZVenv._get_executable_path` (core.py:128-144). -/
def getExecutablePath (w : World) (inst : Inst) (executable : String) : String :=
  if w.osName == "nt" then
    pathJoin (pathJoin inst.envPath "Scripts") (executable ++ ".exe")
  else
    pathJoin (pathJoin inst.envPath "bin") executable

/-- `EZVenv.__init__` (core.py:25-63): resolve the config file path, load the
config, merge explicit arguments / config values / defaults, detect the
package manager, and optionally save the resulting settings as defaults. -/
def construct (w : World) (config_file env_name env_dir python_ver : Option String)
    (save_defaults auto_activate : Bool) : Inst × World × List Event :=
  let configFile := pyOrS config_file (pathJoin (CONFIG_DIR w) "ezvenv.yaml")
  let (config, ev1) := load_config configFile w
  let envName := pyOrS env_name (config.envName.getD ".venv")
  let envDir := abspath w.cwd (pyOrS env_dir w.cwd)
  let pythonVer := pyOrS python_ver (config.pythonVer.getD w.sysExecutable)
  let envPath := pathJoin envDir envName
  let pkgManager := detect_pkg_manager w config
  let inst : Inst :=
    { configFile := configFile
      config := config
      envName := envName
      envDir := envDir
      pythonVer := pythonVer
      envPath := envPath
      pkgManager := pkgManager
      autoInstall := config.autoInstall.getD true
      autoUpdate := config.autoUpdate.getD true
      autoActivate := auto_activate }
  if save_defaults then
    let (w2, ev2) := save_config inst w
    (inst, w2, ev1 ++ ev2)
  else
    (inst, w, ev1)

/-- The external command `EZVenv.create_env` uses to create the environment. -/
def createCmd (inst : Inst) : List String :=
  [inst.pythonVer, "-m", "venv", inst.envPath]

/-- One iteration of the loop in `EZVenv.update_core_components`
(core.py:175-180): upgrade one package, logging and reporting failure but
continuing. -/
def updateOnePackage (w : World) (pipExe pkg : String) : List Event :=
  let cmd := [pipExe, "install", "--upgrade", pkg]
  if runOk w cmd then [.run cmd]
  else [.run cmd,
        .logError ("Failed to update package " ++ pkg),
        .print ("❌ Failed to update " ++ pkg ++ ".")]

/-- `EZVenv.update_core_components` (core.py:167-181): best-effort upgrade of
pip, setuptools and pyyaml inside the environment; never aborts. -/
def update_core_components (inst : Inst) (w : World) : Step Unit :=
  let pipExe := getExecutablePath w inst "pip"
  ⟨.ok (), w,
   [.print "🔄 Updating core components..."] ++
     updateOnePackage w pipExe "pip" ++
     updateOnePackage w pipExe "setuptools" ++
     updateOnePackage w pipExe "pyyaml" ++
     [.print "✅ Core components updated."]⟩

/-- `EZVenv.create_env` (core.py:146-165): if the environment path exists,
log/report and proceed; otherwise run `python -m venv`, exiting 1 on child
failure; in either surviving case print readiness and update core
components. -/
def create_env (inst : Inst) (w : World) : Step Unit :=
  if w.fs.pathExists (w.resolve inst.envPath) then
    (Step.mk (.ok ()) w
      [.logInfo ("Virtual environment already exists at " ++ inst.envPath),
       .print ("✅ Virtual environment already exists at " ++ inst.envPath ++ "."),
       .print ("🟢 Virtual environment is ready: " ++ inst.envPath)]).andThen
      (fun _ w1 => update_core_components inst w1)
  else
    let cmd := createCmd inst
    let pre : List Event :=
      [.logInfo ("Creating virtual environment at " ++ inst.envPath ++
                 " using Python " ++ inst.pythonVer ++ "."),
       .print ("🔧 Creating virtual environment at " ++ inst.envPath ++
               " using Python " ++ inst.pythonVer ++ "..."),
       .run cmd]
    if runOk w cmd then
      -- the external interpreter created the environment directory
      let w1 := { w with fs := w.fs.mkdir (w.resolve inst.envPath) }
      (Step.mk (.ok ()) w1
        (pre ++ [.print ("🟢 Virtual environment is ready: " ++ inst.envPath)])).andThen
        (fun _ w2 => update_core_components inst w2)
    else
      ⟨.exited 1, w,
       pre ++ [.logError "Failed to create virtual environment",
               .print "❌ Failed to create virtual environment."]⟩

/-- `EZVenv.install_deps` (core.py:183-198): install from requirements.txt
when present; skip (with a warning print) when absent; child failure is
logged and reported, never fatal. -/
def install_deps (inst : Inst) (w : World) : Step Unit :=
  let reqPath := pathJoin inst.envDir "requirements.txt"
  let pipExe := getExecutablePath w inst "pip"
  if w.fs.pathExists (w.resolve reqPath) then
    let cmd := [pipExe, "install", "-r", reqPath]
    if runOk w cmd then
      ⟨.ok (), w,
       [.print ("📦 Installing dependencies from " ++ reqPath ++ "..."),
        .run cmd, .logInfo "Dependencies installed successfully."]⟩
    else
      ⟨.ok (), w,
       [.print ("📦 Installing dependencies from " ++ reqPath ++ "..."),
        .run cmd, .logError "Failed to install dependencies",
        .print "❌ Failed to install dependencies."]⟩
  else
    ⟨.ok (), w,
     [.print "⚠️ No requirements.txt found in the project directory. Skipping dependency installation."]⟩

/-- `EZVenv.update_deps` (core.py:200-229): upgrade from requirements.txt
when present; skip (with a warning print and an info log) when absent; child
failure is logged and reported, never fatal. -/
def update_deps (inst : Inst) (w : World) : Step Unit :=
  let reqPath := pathJoin inst.envDir "requirements.txt"
  let pipExe := getExecutablePath w inst "pip"
  if !(w.fs.pathExists (w.resolve reqPath)) then
    ⟨.ok (), w,
     [.print "⚠️ No requirements.txt found. Skipping update.",
      .logInfo ("No requirements.txt found at " ++ reqPath ++
                ". Skipping dependency update.")]⟩
  else
    let cmd := [pipExe, "install", "--upgrade", "-r", reqPath]
    if runOk w cmd then
      ⟨.ok (), w,
       [.print "🔄 Updating dependencies...", .run cmd,
        .logInfo ("Dependencies updated successfully using " ++ reqPath)]⟩
    else
      ⟨.ok (), w,
       [.print "🔄 Updating dependencies...", .run cmd,
        .logError "Failed to update dependencies",
        .print "❌ Failed to update dependencies."]⟩

/-- The final re-exec step shared by the direct activation path
(core.py:302-308): print, set the activation marker, attempt `os.execv` of
the new environment's interpreter; an execv exception is caught and turned
into exit 1. -/
def finishActivate (w : World) (env_python : String)
    (pre : List Event) : Step Unit :=
  let args := env_python :: w.sysArgv
  let w1 := { w with envVars := ("EZVENV_ALREADY_ACTIVATED", "1") :: w.envVars }
  let tr := pre ++
    [.print ("🔄 Activating virtual environment using " ++ env_python ++ " ..."),
     .setEnv "EZVENV_ALREADY_ACTIVATED" "1",
     .execv env_python args]
  if w1.execFails.contains env_python then
    ⟨.exited 1, w1, tr ++ [.print "❌ Failed to activate virtual environment."]⟩
  else
    ⟨.replaced env_python args, w1, tr⟩

/-- The non-master path of `EZVenv.activate_env` (core.py:281-311): if the
running interpreter is not the environment's one, check that `ezvenv` is
importable there, possibly extending PYTHONPATH with the master
environment's site-packages (exit 1 when those are missing), then set the
marker and re-exec; otherwise report the environment as activated. -/
def activateDirect (inst : Inst) (w : World) (env_python : String) : Step Unit :=
  if abspath w.cwd w.sysExecutable != abspath w.cwd env_python then
    let importCmd := [env_python, "-c", "import ezvenv"]
    if runOk w importCmd then
      finishActivate w env_python [.run importCmd]
    else
      let master_env := pathJoin (pathJoin w.homeDir ".EZVenv") "EZVenv-Master"
      let pyver := "python" ++ toString w.pyMajor ++ "." ++ toString w.pyMinor
      let msp := pathJoin (pathJoin (pathJoin master_env "lib") pyver) "site-packages"
      let pre : List Event :=
        [.run importCmd,
         .print "🔄 Adding master environment's site-packages to PYTHONPATH for auto-activation..."]
      if w.fs.pathExists (w.resolve msp) then
        let cur := (w.getEnv "PYTHONPATH").getD ""
        let newVal := msp ++ (if cur != "" then pathSep w ++ cur else "")
        let w1 := { w with envVars := ("PYTHONPATH", newVal) :: w.envVars }
        finishActivate w1 env_python (pre ++ [.setEnv "PYTHONPATH" newVal])
      else
        ⟨.exited 1, w,
         pre ++ [.print "❌ Master environment site-packages not found. Please ensure EZVenv is installed in the master environment."]⟩
  else
    ⟨.ok (), w, [.print ("✅ New environment activated: " ++ inst.envPath)]⟩

/-- `EZVenv.activate_env` (core.py:231-311).  When the running interpreter
lives inside the master environment, present the three-way menu: choice 3
exits 0, choice 1 sets the marker and execs a shell sourcing the activation
script (the execv here is not wrapped, so a failure propagates), choice 2
sets the marker and execs the environment's interpreter (wrapped, failure →
exit 1), anything else exits 0.  Otherwise take the direct path. -/
def activate_env (inst : Inst) (w : World) : Step Unit :=
  let env_python := getExecutablePath w inst "python"
  let current_executable := abspath w.cwd w.sysExecutable
  let master_env := pathJoin (pathJoin w.homeDir ".EZVenv") "EZVenv-Master"
  if strContainsSub current_executable master_env then
    let menu : List Event :=
      [.print "It is detected you are currently in the master EZVenv environment.",
       .print ("New environment to be activated: " ++ inst.envPath),
       .print "Choose an option:",
       .print "  1) Deactivate the master environment and then activate the new environment.",
       .print "  2) Activate the new environment on top of the master environment.",
       .print "  3) Do nothing (abort activation).",
       .print "Enter 1, 2, or 3: ", .readInput]
    match w.stdinLines with
    | [] => ⟨.raised, w, menu⟩
    | ans :: rest =>
      let w1 := { w with stdinLines := rest }
      let choice := pyStrip ans
      if choice == "3" then
        ⟨.exited 0, w1, menu ++ [.print "No changes made. Exiting activation."]⟩
      else if choice == "1" then
        let script := pathJoin (pathJoin inst.envPath "bin") "activate"
        let bashArgs := ["/bin/bash", "-c", "source " ++ script ++ " && exec bash"]
        let w2 := { w1 with envVars := ("EZVENV_ALREADY_ACTIVATED", "1") :: w1.envVars }
        let tr := menu ++
          [.print "Deactivating master environment and starting new shell with the new environment...",
           .setEnv "EZVENV_ALREADY_ACTIVATED" "1",
           .execv "/bin/bash" bashArgs]
        if w2.execFails.contains "/bin/bash" then ⟨.raised, w2, tr⟩
        else ⟨.replaced "/bin/bash" bashArgs, w2, tr⟩
      else if choice == "2" then
        let args := env_python :: w1.sysArgv
        let w2 := { w1 with envVars := ("EZVENV_ALREADY_ACTIVATED", "1") :: w1.envVars }
        let tr := menu ++
          [.print "Proceeding to activate the new environment on top of the master environment...",
           .setEnv "EZVENV_ALREADY_ACTIVATED" "1",
           .execv env_python args]
        if w2.execFails.contains env_python then
          ⟨.exited 1, w2, tr ++ [.print "❌ Failed to activate virtual environment."]⟩
        else ⟨.replaced env_python args, w2, tr⟩
      else
        ⟨.exited 0, w1, menu ++ [.print "Invalid choice. Exiting."]⟩
  else
    activateDirect inst w env_python

/-- `EZVenv.setup_env` (core.py:313-334). -/
def setup_env (inst : Inst) (w : World) : Step Unit :=
  (create_env inst w).andThen fun _ w1 =>
  (Step.mk (.ok ()) w1
    [.print ("🔗 Preparing to activate environment: " ++ inst.envPath)]).andThen fun _ w2 =>
  (install_deps inst w2).andThen fun _ w3 =>
  (update_deps inst w3).andThen fun _ w4 =>
  (Step.mk (.ok ()) w4 [.logInfo "Environment setup completed successfully."]).andThen fun _ w5 =>
  if inst.autoActivate then activate_env inst w5
  else ⟨.ok (), w5,
        [.print "ℹ️ Auto-activation is disabled. Please activate the virtual environment manually if needed."]⟩

/-! ## The bootstrap entry point `init_env` -/

/-- Python truthiness of an optional string (`None` and `""` are falsy). -/
def pyTruthyS : Option String → Bool
  | none => false
  | some s => s != ""

/-- The confirmation test of the two `init_env` prompts
(`answer.lower() in ["y", "yes", ""]`, core.py:375 and 384/394). -/
def answerAffirmative (ans : String) : Bool :=
  ["y", "yes", ""].contains (pyLower ans)

/-- Directory preparation of `init_env` (core.py:368-377) for a truthy
target directory: create it when absent; when present and non-empty prompt
for confirmation, aborting with exit 0 on a non-affirmative answer.  When
the path exists but is a regular file, `os.listdir` raises (uncaught). -/
def dirPrep (d : String) (w : World) : Step Unit :=
  if !(w.fs.pathExists (w.resolve d)) then
    ⟨.ok (), { w with fs := w.fs.mkdir (w.resolve d) },
     [.print ("Directory '" ++ d ++ "' does not exist. Creating it..."),
      .mkdirs d]⟩
  else if !(w.fs.isDir (w.resolve d)) then
    ⟨.raised, w, []⟩
  else if w.fs.dirNonEmpty (w.resolve d) then
    let prompt := "Directory '" ++ d ++
      "' is not empty. Are you sure you want to initialize it? (Y/n): "
    match w.stdinLines with
    | [] => ⟨.raised, w, [.print prompt, .readInput]⟩
    | ans :: rest =>
      let w1 := { w with stdinLines := rest }
      if answerAffirmative ans then ⟨.ok (), w1, [.print prompt, .readInput]⟩
      else ⟨.exited 0, w1,
            [.print prompt, .readInput, .print "Initialization aborted."]⟩
  else ⟨.ok (), w, []⟩

/-- Config-file determination of `init_env` (core.py:379-386 and 389-396,
identical in both branches): a falsy `config_file` defaults to
`<cwd>/ezvenv.yaml` with no check; a truthy one that already exists triggers
the overwrite prompt, aborting with exit 0 on a non-affirmative answer. -/
def configCheck (config_file : Option String) (w : World) : Step String :=
  if pyTruthyS config_file then
    let cf := config_file.getD ""
    if w.fs.pathExists (w.resolve cf) then
      let prompt := "Configuration file '" ++ cf ++ "' already exists. Overwrite? (Y/n): "
      match w.stdinLines with
      | [] => ⟨.raised, w, [.print prompt, .readInput]⟩
      | ans :: rest =>
        let w1 := { w with stdinLines := rest }
        if answerAffirmative ans then ⟨.ok cf, w1, [.print prompt, .readInput]⟩
        else ⟨.exited 0, w1,
              [.print prompt, .readInput,
               .print "Initialization aborted due to existing configuration."]⟩
    else ⟨.ok cf, w, []⟩
  else
    ⟨.ok (pathJoin w.cwd "ezvenv.yaml"), w, []⟩

/-- The tail of `init_env` (core.py:398-408): construct the `EZVenv`
instance with the resolved config file, run `setup_env`, return the
environment path. -/
def finishInit (env_name env_dir python_ver : Option String) (cf : String)
    (save_defaults auto_activate : Bool) (w : World) : Step String :=
  let c := construct w (some cf) env_name env_dir python_ver save_defaults auto_activate
  (Step.mk (.ok ()) c.2.1 c.2.2).andThen fun _ w2 =>
  (setup_env c.1 w2).andThen fun _ w3 =>
  ⟨.ok c.1.envPath, w3, []⟩

/-- `init_env` (core.py:337-408): skip re-initialization when the activation
marker equals "1"; otherwise prepare the target directory, enter it, resolve
the config file (with overwrite prompt), then construct and set up the
environment. -/
def init_env (env_name env_dir python_ver config_file : Option String)
    (save_defaults auto_activate : Bool) (w : World) : Step String :=
  if w.getEnv "EZVENV_ALREADY_ACTIVATED" == some "1" then
    ⟨.ok w.cwd, w,
     [.print "Environment already activated, skipping re-initialization."]⟩
  else if pyTruthyS env_dir then
    let d := env_dir.getD ""
    (dirPrep d w).andThen fun _ w1 =>
    (Step.mk (.ok ()) { w1 with cwd := w1.resolve d } [.chdir d]).andThen fun _ w2 =>
    (configCheck config_file w2).andThen fun cf w3 =>
    finishInit env_name (some d) python_ver cf save_defaults auto_activate w3
  else
    (configCheck config_file w).andThen fun cf w1 =>
    finishInit env_name (some w.cwd) python_ver cf save_defaults auto_activate w1

/-! ## Observation helpers on event traces -/

/-- Events that mutate the filesystem, the process state, or spawn/replace
processes (everything except terminal output, log lines and reading input). -/
def Event.isMutation : Event → Bool
  | .mkdirs _ => true
  | .chdir _ => true
  | .writeFile _ => true
  | .setEnv _ _ => true
  | .run _ => true
  | .execv _ _ => true
  | _ => false

/-- A Process Runner (subprocess) invocation. -/
def Event.isRun : Event → Bool
  | .run _ => true
  | _ => false

/-- A user-visible terminal print. -/
def Event.isPrint : Event → Bool
  | .print _ => true
  | _ => false

/-- An error-level log entry. -/
def Event.isLogError : Event → Bool
  | .logError _ => true
  | _ => false

/-- Scans a trace left to right carrying whether the activation marker has
been set to "1"; returns `false` iff some process-image replacement
(`execv`) is attempted while the marker is still unset. -/
def markerSetBeforeExec : Bool → List Event → Bool
  | _, [] => true
  | flag, .setEnv k v :: rest =>
      markerSetBeforeExec (flag || (k == "EZVENV_ALREADY_ACTIVATED" && v == "1")) rest
  | flag, .execv _ _ :: rest => flag && markerSetBeforeExec flag rest
  | flag, _ :: rest => markerSetBeforeExec flag rest

/-- Whether the parser selected by the config file's suffix raises on the
given content (the "fails to parse" condition of the Config Store
contract); for suffixes with no associated parser nothing is parsed, so
nothing can raise. -/
def parseRaises (cf : String) (d : FileData) : Bool :=
  if strEndsWith cf ".json" then
    match parseJson d with
    | .ok _ => false
    | .error _ => true
  else if strEndsWith cf ".yaml" || strEndsWith cf ".yml" then
    match parseYaml d with
    | .ok _ => false
    | .error _ => true
  else false

/-! ## C5 — `load_config` fails soft -/

/-- C5: For every config-file path, `load_config` never raises to its caller
(its return type here carries no exceptional outcome at all): if the file is
missing it returns the empty settings fragment, if the file exists but its
parser raises it logs the error and returns the empty fragment, and if the
path exists but cannot be opened as a file (a directory) it likewise logs
and returns the empty fragment. -/
theorem load_config_fails_soft (cf : String) (w : World) :
    (w.fs.lookupFile (w.resolve cf) = none → w.fs.isDir (w.resolve cf) = false →
      load_config cf w =
        (Config.empty,
         [.logInfo ("No config file found at " ++ cf ++ ". Using default settings.")])) ∧
    (∀ d, w.fs.lookupFile (w.resolve cf) = some d → parseRaises cf d = true →
      (load_config cf w).1 = Config.empty ∧
        Event.logError "Error loading config file" ∈ (load_config cf w).2) ∧
    (w.fs.lookupFile (w.resolve cf) = none → w.fs.isDir (w.resolve cf) = true →
      (load_config cf w).1 = Config.empty ∧
        Event.logError "Error loading config file" ∈ (load_config cf w).2) := by
  refine ⟨?_, ?_, ?_⟩
  · intro hfile hdir
    simp [load_config, hfile, hdir]
  · intro d hfile hraise
    by_cases hj : strEndsWith cf ".json" = true
    · cases d <;> simp_all [load_config, parseRaises, parseJson]
    · by_cases hy : (strEndsWith cf ".yaml" || strEndsWith cf ".yml") = true
      · cases d <;> simp_all [load_config, parseRaises, parseYaml]
      · simp_all [parseRaises]
  · intro hfile hdir
    simp [load_config, hfile, hdir]

/-- World for the C5 witness: a malformed YAML config plus a missing one. -/
def wC5 : World :=
  { fs := ⟨[("/home/u/.EZVenv/bad.yaml", .malformed)], []⟩
    envVars := []
    cwd := "/home/u/proj"
    stdinLines := []
    homeDir := "/home/u"
    sysExecutable := "/usr/bin/python3"
    sysArgv := ["ezvenv", "init"]
    osName := "posix"
    pyMajor := 3
    pyMinor := 11
    pathTools := []
    failingCmds := []
    execFails := []
    roFiles := [] }

/-- Witness for C5 at a malformed YAML file and at a missing file. -/
theorem load_config_fails_soft_witness :
    ((load_config "/home/u/.EZVenv/bad.yaml" wC5).1 = Config.empty ∧
      Event.logError "Error loading config file" ∈
        (load_config "/home/u/.EZVenv/bad.yaml" wC5).2) ∧
    load_config "/home/u/.EZVenv/none.yaml" wC5 =
      (Config.empty,
       [.logInfo "No config file found at /home/u/.EZVenv/none.yaml. Using default settings."]) :=
  ⟨(load_config_fails_soft "/home/u/.EZVenv/bad.yaml" wC5).2.1 .malformed
      (by decide) (by decide),
   (load_config_fails_soft "/home/u/.EZVenv/none.yaml" wC5).1 (by decide) (by decide)⟩

/-! ## C10 — unknown config suffix: silent empty fragment -/

/-- C10: For every existing config file whose name ends in none of `.json`,
`.yaml`, `.yml`, `load_config` performs no parse attempt (the content —
whatever it is — is never consulted) and returns the empty fragment with
only an info log entry: no user-visible print and no error, exactly the
user-visible behavior of a missing file. -/
theorem load_config_unknown_suffix (cf : String) (w : World) (d : FileData)
    (hfile : w.fs.lookupFile (w.resolve cf) = some d)
    (hjson : strEndsWith cf ".json" = false)
    (hyaml : strEndsWith cf ".yaml" = false)
    (hyml : strEndsWith cf ".yml" = false) :
    load_config cf w =
      (Config.empty, [.logInfo ("Configuration loaded from " ++ cf)]) := by
  simp [load_config, hfile, hjson, hyaml, hyml]

/-- World for the C10 witness: an existing `.conf` file with unparseable
content. -/
def wC10 : World :=
  { wC5 with fs := ⟨[("/home/u/.EZVenv/ezvenv.conf", .malformed)], []⟩ }

/-- Witness for C10: a malformed `.conf` file is silently ignored. -/
theorem load_config_unknown_suffix_witness :
    load_config "/home/u/.EZVenv/ezvenv.conf" wC10 =
      (Config.empty, [.logInfo "Configuration loaded from /home/u/.EZVenv/ezvenv.conf"]) :=
  load_config_unknown_suffix "/home/u/.EZVenv/ezvenv.conf" wC10 .malformed
    (by decide) (by decide) (by decide) (by decide)

/-! ## C6 — missing manifest: zero subprocess invocations -/

/-- C6: For every project directory without a `requirements.txt`, both
`install_deps` and `update_deps` perform zero Process Runner invocations,
leave the world unchanged, and return successfully (no exit, no raise). -/
theorem deps_skip_without_manifest (inst : Inst) (w : World)
    (hreq : w.fs.pathExists (w.resolve (pathJoin inst.envDir "requirements.txt")) = false) :
    ((install_deps inst w).out = .ok () ∧ (install_deps inst w).w = w ∧
      (install_deps inst w).tr.all (fun e => !e.isRun) = true) ∧
    ((update_deps inst w).out = .ok () ∧ (update_deps inst w).w = w ∧
      (update_deps inst w).tr.all (fun e => !e.isRun) = true) := by
  constructor
  · simp [install_deps, hreq, Event.isRun]
  · simp [update_deps, hreq, Event.isRun]

/-- Instance for the C6 witness. -/
def instC6 : Inst :=
  { configFile := "/home/u/.EZVenv/ezvenv.yaml"
    config := Config.empty
    envName := ".venv"
    envDir := "/home/u/proj"
    pythonVer := "/usr/bin/python3"
    envPath := "/home/u/proj/.venv"
    pkgManager := "pip"
    autoInstall := true
    autoUpdate := true
    autoActivate := true }

/-- World for the C6 witness: project directory with no requirements.txt. -/
def wC6 : World := { wC5 with fs := ⟨[], [("/home/u/proj", true)]⟩ }

/-- Witness for C6. -/
theorem deps_skip_without_manifest_witness :
    ((install_deps instC6 wC6).out = .ok () ∧ (install_deps instC6 wC6).w = wC6 ∧
      (install_deps instC6 wC6).tr.all (fun e => !e.isRun) = true) ∧
    ((update_deps instC6 wC6).out = .ok () ∧ (update_deps instC6 wC6).w = wC6 ∧
      (update_deps instC6 wC6).tr.all (fun e => !e.isRun) = true) :=
  deps_skip_without_manifest instC6 wC6 (by decide)

/-! ## C3 — environment creation: exactly-when, fatality, already-exists -/

/-- C3: `create_env` invokes the external creation command (resolved
interpreter, `-m venv`, environment path) exactly when the environment root
does not exist; when that command exits non-zero the run aborts with exit
code 1; when the root already exists no creation invocation occurs, the
"already exists" message is printed, and the outcome is a normal return
rather than an error. -/
theorem create_env_spec (inst : Inst) (w : World) :
    ((Event.run (createCmd inst) ∈ (create_env inst w).tr) ↔
       w.fs.pathExists (w.resolve inst.envPath) = false) ∧
    (w.fs.pathExists (w.resolve inst.envPath) = true →
       (create_env inst w).out = .ok () ∧
       Event.print ("✅ Virtual environment already exists at " ++ inst.envPath ++ ".")
         ∈ (create_env inst w).tr) ∧
    (w.fs.pathExists (w.resolve inst.envPath) = false →
       runOk w (createCmd inst) = false →
       (create_env inst w).out = .exited 1) := by
  by_cases hex : w.fs.pathExists (w.resolve inst.envPath) = true
  · refine ⟨?_, fun _ => ?_, fun hf => by simp [hex] at hf⟩
    · simp [create_env, hex, Step.andThen, update_core_components, updateOnePackage,
        createCmd]
      refine ⟨?_, ?_, ?_⟩ <;> split <;> simp
    · constructor
      · simp [create_env, hex, Step.andThen, update_core_components]
      · simp [create_env, hex, Step.andThen, update_core_components]
  · simp only [Bool.not_eq_true] at hex
    refine ⟨?_, fun ht => by simp [hex] at ht, fun _ hrun => ?_⟩
    · by_cases hrun : runOk w (createCmd inst) = true
      · simp [create_env, hex, hrun, Step.andThen, update_core_components]
      · simp only [Bool.not_eq_true] at hrun
        simp [create_env, hex, hrun, Step.andThen]
    · simp [create_env, hex, hrun, Step.andThen]

/-- Instance for the C3 witness. -/
def instC3 : Inst :=
  { configFile := "/home/u/.EZVenv/ezvenv.yaml"
    config := Config.empty
    envName := ".venv"
    envDir := "/home/u/proj"
    pythonVer := "/usr/bin/python3"
    envPath := "/home/u/proj/.venv"
    pkgManager := "pip"
    autoInstall := true
    autoUpdate := true
    autoActivate := true }

/-- World for the C3 witness: the environment root is absent and the
external creation command exits non-zero. -/
def wC3 : World :=
  { fs := ⟨[], [("/home/u/proj", true)]⟩
    envVars := []
    cwd := "/home/u/proj"
    stdinLines := []
    homeDir := "/home/u"
    sysExecutable := "/usr/bin/python3"
    sysArgv := ["ezvenv", "init"]
    osName := "posix"
    pyMajor := 3
    pyMinor := 11
    pathTools := []
    failingCmds := [["/usr/bin/python3", "-m", "venv", "/home/u/proj/.venv"]]
    execFails := []
    roFiles := [] }

/-- Witness for C3: with the root absent and the creation command failing,
the creation command is attempted and the run exits 1. -/
theorem create_env_spec_witness :
    wC3.fs.pathExists (wC3.resolve instC3.envPath) = false ∧
    runOk wC3 (createCmd instC3) = false ∧
    (Event.run (createCmd instC3) ∈ (create_env instC3 wC3).tr) ∧
    (create_env instC3 wC3).out = .exited 1 :=
  ⟨by decide, by decide,
   ((create_env_spec instC3 wC3).1).mpr (by decide),
   (create_env_spec instC3 wC3).2.2 (by decide) (by decide)⟩

/-! ## C4 — config round-trip -/

/-- Suffix facts: a path ending in `.yaml` does not end in `.json`. -/
theorem yaml_not_json (s : String) (h : strEndsWith s ".yaml" = true) :
    strEndsWith s ".json" = false := by
  unfold strEndsWith at *
  simp only [Bool.and_eq_true, decide_eq_true_eq, beq_iff_eq] at h
  by_contra hb
  simp only [Bool.not_eq_false, Bool.and_eq_true, decide_eq_true_eq, beq_iff_eq] at hb
  have := h.2.symm.trans hb.2
  simp at this

/-- Suffix facts: a path ending in `.yml` does not end in `.json`. -/
theorem yml_not_json (s : String) (h : strEndsWith s ".yml" = true) :
    strEndsWith s ".json" = false := by
  unfold strEndsWith at *
  simp only [Bool.and_eq_true, decide_eq_true_eq, beq_iff_eq] at h
  by_contra hb
  simp only [Bool.not_eq_false, Bool.and_eq_true, decide_eq_true_eq, beq_iff_eq] at hb
  have e4 : (".yml".data).length = 4 := by decide
  have e5 : (".json".data).length = 5 := by decide
  rw [e4] at h
  rw [e5] at hb
  have hd : List.drop 1 (s.data.drop (s.data.length - 5)) =
      s.data.drop (s.data.length - 4) := by
    rw [List.drop_drop]
    congr 1
    omega
  rw [hb.2, h.2] at hd
  exact absurd hd (by decide)

/-- C4: load–save–load round-trip.  For every world and every settings
fragment stored in a YAML config file (any path with the `.yaml` or `.yml`
suffix, which includes the well-known default `~/.EZVenv/ezvenv.yaml`),
constructing the instance loads that fragment, and after `save_config` a
further `load_config` returns exactly the saved document — the six persisted
fields `envName`, `envDir`, `pythonVer`, `autoInstall`, `autoUpdate`,
`pkgManager`; fields not persisted (e.g. `autoActivate`) do not appear in
the document at all. -/
theorem config_roundtrip (w : World) (cf : String) (c : Config)
    (env_name env_dir python_ver : Option String) (auto_activate : Bool)
    (hcf : cf ≠ "")
    (hsuf : strEndsWith cf ".yaml" = true ∨ strEndsWith cf ".yml" = true)
    (hfile : w.fs.lookupFile (w.resolve cf) = some (.yamlDoc c))
    (hro : w.roFiles.contains (w.resolve cf) = false) :
    (construct w (some cf) env_name env_dir python_ver false auto_activate).1.config = c ∧
    (load_config cf
        (save_config (construct w (some cf) env_name env_dir python_ver false auto_activate).1 w).1).1 =
      persistedOf (construct w (some cf) env_name env_dir python_ver false auto_activate).1 := by
  have hjson : strEndsWith cf ".json" = false := by
    rcases hsuf with h | h
    · exact yaml_not_json cf h
    · exact yml_not_json cf h
  have hcfeq : (construct w (some cf) env_name env_dir python_ver false auto_activate).1.configFile = cf := by
    simp [construct, pyOrS, hcf]
  constructor
  · rcases hsuf with h | h <;>
      simp [construct, pyOrS, hcf, load_config, hfile, hjson, h, parseYaml]
  · have hro2 : abspath w.cwd cf ∉ w.roFiles := by
      simpa [World.resolve] using hro
    rcases hsuf with h | h <;>
      simp [save_config, hcfeq, hro2, load_config, FS.writeFile, FS.lookupFile,
        World.resolve, List.lookup, hjson, h, parseYaml]

/-- World for the C4 witness: a fragment stored at the default per-user
config path. -/
def wC4 : World :=
  { fs := ⟨[("/home/u/.EZVenv/ezvenv.yaml",
             .yamlDoc { envName := some "proj-env", pkgManager := some "pip" })], []⟩
    envVars := []
    cwd := "/home/u/proj"
    stdinLines := []
    homeDir := "/home/u"
    sysExecutable := "/usr/bin/python3"
    sysArgv := ["ezvenv", "init"]
    osName := "posix"
    pyMajor := 3
    pyMinor := 11
    pathTools := []
    failingCmds := []
    execFails := []
    roFiles := [] }

/-- Witness for C4 at the default config path. -/
theorem config_roundtrip_witness :
    (construct wC4 (some "/home/u/.EZVenv/ezvenv.yaml") none none none false true).1.config =
      { envName := some "proj-env", pkgManager := some "pip" } ∧
    (load_config "/home/u/.EZVenv/ezvenv.yaml"
        (save_config (construct wC4 (some "/home/u/.EZVenv/ezvenv.yaml") none none none false true).1 wC4).1).1 =
      persistedOf (construct wC4 (some "/home/u/.EZVenv/ezvenv.yaml") none none none false true).1 :=
  config_roundtrip wC4 "/home/u/.EZVenv/ezvenv.yaml"
    { envName := some "proj-env", pkgManager := some "pip" }
    none none none true (by decide) (Or.inl (by decide)) (by decide) (by decide)

/-! ## C1 — activation marker short-circuit (corrected: value must be "1") -/

/-- World for the C1 counterexample: the activation-marker variable is
present but set to "0". -/
def wC1 : World :=
  { fs := ⟨[], [("/home/u/proj", true)]⟩
    envVars := [("EZVENV_ALREADY_ACTIVATED", "0")]
    cwd := "/home/u/proj"
    stdinLines := []
    homeDir := "/home/u"
    sysExecutable := "/usr/bin/python3"
    sysArgv := ["ezvenv", "init"]
    osName := "posix"
    pyMajor := 3
    pyMinor := 11
    pathTools := []
    failingCmds := []
    execFails := []
    roFiles := [] }

/-- Counterexample to C1 as stated: `init_env` checks the marker's value
against "1" (core.py:363), not its presence.  With the marker present but
equal to "0" and a fresh target directory, `init_env` does not return
immediately: it creates the directory (a directory-creation side effect) and
ends in a process replacement, not a normal return of the cwd. -/
theorem marker_presence_counterexample :
    wC1.getEnv "EZVENV_ALREADY_ACTIVATED" = some "0" ∧
    Event.mkdirs "/d" ∈ (init_env none (some "/d") none none false true wC1).tr ∧
    (init_env none (some "/d") none none false true wC1).out =
      .replaced "/d/.venv/bin/python" ["/d/.venv/bin/python", "ezvenv", "init"] := by
  decide

/-- C1 (amended): if the activation-marker variable is present *with value
"1"* at entry, `init_env` returns immediately with the current working
directory, leaves the world untouched, and its only event is the skip
message — no directory-creation, config-write, environment-creation,
dependency-install or activation side effect. -/
theorem marker_skip (env_name env_dir python_ver config_file : Option String)
    (save_defaults auto_activate : Bool) (w : World)
    (h : w.getEnv "EZVENV_ALREADY_ACTIVATED" = some "1") :
    init_env env_name env_dir python_ver config_file save_defaults auto_activate w =
      ⟨.ok w.cwd, w,
       [.print "Environment already activated, skipping re-initialization."]⟩ := by
  unfold init_env
  rw [h]
  simp

/-- World for the C1 witness: marker present with value "1". -/
def wC1b : World := { wC1 with envVars := [("EZVENV_ALREADY_ACTIVATED", "1")] }

/-- Witness for the amended C1. -/
theorem marker_skip_witness :
    wC1b.getEnv "EZVENV_ALREADY_ACTIVATED" = some "1" ∧
    init_env none (some "/d") none none false true wC1b =
      ⟨.ok "/home/u/proj", wC1b,
       [.print "Environment already activated, skipping re-initialization."]⟩ :=
  ⟨by decide, marker_skip none (some "/d") none none false true wC1b (by decide)⟩

/-! ## C2 — declined confirmation on a non-empty directory -/

/-- C2: given a target directory that exists, is a directory and is
non-empty, and a first pending input line that is a non-affirmative answer,
`init_env` exits with code 0, leaves the filesystem, working directory and
environment variables unchanged, and its trace contains no mutating event
(no directory created or entered, nothing written, no subprocess, no env-var
set, no exec). -/
theorem init_declined_no_mutation
    (env_name python_ver config_file : Option String)
    (save_defaults auto_activate : Bool) (w : World) (d ans : String)
    (rest : List String)
    (hmark : w.getEnv "EZVENV_ALREADY_ACTIVATED" ≠ some "1")
    (hd : d ≠ "")
    (hex : w.fs.pathExists (w.resolve d) = true)
    (hdir : w.fs.isDir (w.resolve d) = true)
    (hne : w.fs.dirNonEmpty (w.resolve d) = true)
    (hin : w.stdinLines = ans :: rest)
    (hans : answerAffirmative ans = false) :
    (init_env env_name (some d) python_ver config_file save_defaults auto_activate w).out =
        .exited 0 ∧
    (init_env env_name (some d) python_ver config_file save_defaults auto_activate w).w.fs =
        w.fs ∧
    (init_env env_name (some d) python_ver config_file save_defaults auto_activate w).w.cwd =
        w.cwd ∧
    (init_env env_name (some d) python_ver config_file save_defaults auto_activate w).w.envVars =
        w.envVars ∧
    (init_env env_name (some d) python_ver config_file save_defaults auto_activate w).tr.all
        (fun e => !e.isMutation) = true := by
  have hmark2 : (w.getEnv "EZVENV_ALREADY_ACTIVATED" == some "1") = false := by
    simpa using hmark
  unfold init_env
  rw [hmark2]
  simp only [Bool.false_eq_true, if_false, pyTruthyS, Option.getD_some]
  have htr : (d != "") = true := by simpa using hd
  rw [htr]
  simp only [if_true]
  unfold dirPrep
  rw [hex]
  simp only [Bool.not_true, Bool.false_eq_true, if_false]
  rw [hdir]
  simp only [Bool.not_true, Bool.false_eq_true, if_false]
  rw [hne]
  simp only [if_true]
  rw [hin]
  simp [hans, Step.andThen, Event.isMutation]

/-- World for the C2 witness: an existing non-empty directory and a pending
"n" answer. -/
def wC2 : World :=
  { fs := ⟨[], [("/home/u/proj", true), ("/d2", true)]⟩
    envVars := []
    cwd := "/home/u/proj"
    stdinLines := ["n"]
    homeDir := "/home/u"
    sysExecutable := "/usr/bin/python3"
    sysArgv := ["ezvenv", "init"]
    osName := "posix"
    pyMajor := 3
    pyMinor := 11
    pathTools := []
    failingCmds := []
    execFails := []
    roFiles := [] }

/-- Witness for C2. -/
theorem init_declined_no_mutation_witness :
    (init_env none (some "/d2") none none false true wC2).out = .exited 0 ∧
    (init_env none (some "/d2") none none false true wC2).w.fs = wC2.fs ∧
    (init_env none (some "/d2") none none false true wC2).w.cwd = wC2.cwd ∧
    (init_env none (some "/d2") none none false true wC2).w.envVars = wC2.envVars ∧
    (init_env none (some "/d2") none none false true wC2).tr.all
        (fun e => !e.isMutation) = true :=
  init_declined_no_mutation none none none false true wC2 "/d2" "n" []
    (by decide) (by decide) (by decide) (by decide) (by decide) (by decide) (by decide)

/-! ## C7 — settings resolution priority (corrected: envDir ignores config) -/

/-- The instance produced by the constructor without `save_defaults`
(the resolution step of the Environment Descriptor). -/
def resolvedInst (w : World)
    (config_file env_name env_dir python_ver : Option String) : Inst :=
  (construct w config_file env_name env_dir python_ver false true).1

/-- World for the C7 counterexample: the stored config carries
`envDir: /stored`. -/
def wC7 : World :=
  { fs := ⟨[("/home/u/.EZVenv/ezvenv.yaml", .yamlDoc { envDir := some "/stored" })], []⟩
    envVars := []
    cwd := "/home/u/proj"
    stdinLines := []
    homeDir := "/home/u"
    sysExecutable := "/usr/bin/python3"
    sysArgv := ["ezvenv", "init"]
    osName := "posix"
    pyMajor := 3
    pyMinor := 11
    pathTools := []
    failingCmds := []
    execFails := []
    roFiles := [] }

/-- Counterexample to C7 as stated: with no explicit `env_dir` argument and
a stored config value `envDir = "/stored"`, the resolved environment
directory is the current working directory, not the stored value — the code
computes `abspath(env_dir or os.getcwd())` (core.py:50) and never consults
the config for the directory, so the priority "explicit > stored > default"
fails on this setting. -/
theorem envdir_priority_counterexample :
    (resolvedInst wC7 none none none none).config.envDir = some "/stored" ∧
    (resolvedInst wC7 none none none none).envDir = "/home/u/proj" := by
  decide

/-- C7 (amended): the environment name and interpreter are resolved by the
priority explicit truthy argument > stored config value > hard default
(".venv" / the running interpreter); the package manager (which has no
constructor argument) by stored value other than "auto" > first of poetry,
pipenv on the search path > pip — in particular with "auto" (or no stored
value) and both tools absent it is pip; the environment directory ignores
the stored config entirely: explicit truthy argument (made absolute) >
current working directory. -/
theorem settings_resolution (w : World)
    (config_file env_name env_dir python_ver : Option String) :
    (pyTruthyS env_name = true →
      (resolvedInst w config_file env_name env_dir python_ver).envName =
        env_name.getD "") ∧
    (pyTruthyS env_name = false →
      ∀ c, (resolvedInst w config_file env_name env_dir python_ver).config.envName = some c →
      (resolvedInst w config_file env_name env_dir python_ver).envName = c) ∧
    (pyTruthyS env_name = false →
      (resolvedInst w config_file env_name env_dir python_ver).config.envName = none →
      (resolvedInst w config_file env_name env_dir python_ver).envName = ".venv") ∧
    (pyTruthyS python_ver = true →
      (resolvedInst w config_file env_name env_dir python_ver).pythonVer =
        python_ver.getD "") ∧
    (pyTruthyS python_ver = false →
      ∀ p, (resolvedInst w config_file env_name env_dir python_ver).config.pythonVer = some p →
      (resolvedInst w config_file env_name env_dir python_ver).pythonVer = p) ∧
    (pyTruthyS python_ver = false →
      (resolvedInst w config_file env_name env_dir python_ver).config.pythonVer = none →
      (resolvedInst w config_file env_name env_dir python_ver).pythonVer = w.sysExecutable) ∧
    (pyTruthyS env_dir = true →
      (resolvedInst w config_file env_name env_dir python_ver).envDir =
        abspath w.cwd (env_dir.getD "")) ∧
    (pyTruthyS env_dir = false →
      (resolvedInst w config_file env_name env_dir python_ver).envDir =
        abspath w.cwd w.cwd) ∧
    (∀ m, (resolvedInst w config_file env_name env_dir python_ver).config.pkgManager = some m →
      m ≠ "auto" →
      (resolvedInst w config_file env_name env_dir python_ver).pkgManager = m) ∧
    ((resolvedInst w config_file env_name env_dir python_ver).config.pkgManager.getD "auto" = "auto" →
      which w "poetry" = true →
      (resolvedInst w config_file env_name env_dir python_ver).pkgManager = "poetry") ∧
    ((resolvedInst w config_file env_name env_dir python_ver).config.pkgManager.getD "auto" = "auto" →
      which w "poetry" = false → which w "pipenv" = true →
      (resolvedInst w config_file env_name env_dir python_ver).pkgManager = "pipenv") ∧
    ((resolvedInst w config_file env_name env_dir python_ver).config.pkgManager.getD "auto" = "auto" →
      which w "poetry" = false → which w "pipenv" = false →
      (resolvedInst w config_file env_name env_dir python_ver).pkgManager = "pip") := by
  refine ⟨?_, ?_, ?_, ?_, ?_, ?_, ?_, ?_, ?_, ?_, ?_, ?_⟩
  · intro ht
    cases env_name with
    | none => simp [pyTruthyS] at ht
    | some s =>
      have hs : (s == "") = false := by simpa [pyTruthyS] using ht
      simp [resolvedInst, construct, pyOrS, hs]
  · intro hf c hc
    cases env_name with
    | none => simp_all [resolvedInst, construct, pyOrS]
    | some s =>
      have hs : s = "" := by simpa [pyTruthyS] using hf
      subst hs
      simp_all [resolvedInst, construct, pyOrS]
  · intro hf hc
    cases env_name with
    | none => simp_all [resolvedInst, construct, pyOrS]
    | some s =>
      have hs : s = "" := by simpa [pyTruthyS] using hf
      subst hs
      simp_all [resolvedInst, construct, pyOrS]
  · intro ht
    cases python_ver with
    | none => simp [pyTruthyS] at ht
    | some s =>
      have hs : (s == "") = false := by simpa [pyTruthyS] using ht
      simp [resolvedInst, construct, pyOrS, hs]
  · intro hf p hp
    cases python_ver with
    | none => simp_all [resolvedInst, construct, pyOrS]
    | some s =>
      have hs : s = "" := by simpa [pyTruthyS] using hf
      subst hs
      simp_all [resolvedInst, construct, pyOrS]
  · intro hf hp
    cases python_ver with
    | none => simp_all [resolvedInst, construct, pyOrS]
    | some s =>
      have hs : s = "" := by simpa [pyTruthyS] using hf
      subst hs
      simp_all [resolvedInst, construct, pyOrS]
  · intro ht
    cases env_dir with
    | none => simp [pyTruthyS] at ht
    | some s =>
      have hs : (s == "") = false := by simpa [pyTruthyS] using ht
      simp [resolvedInst, construct, pyOrS, hs]
  · intro hf
    cases env_dir with
    | none => simp [resolvedInst, construct, pyOrS]
    | some s =>
      have hs : s = "" := by simpa [pyTruthyS] using hf
      subst hs
      simp [resolvedInst, construct, pyOrS]
  · intro m hm hne
    have hb : (m != "auto") = true := by simpa using hne
    simp_all [resolvedInst, construct, detect_pkg_manager]
  · intro hauto hp
    simp_all [resolvedInst, construct, detect_pkg_manager]
  · intro hauto hp hq
    simp_all [resolvedInst, construct, detect_pkg_manager]
  · intro hauto hp hq
    simp_all [resolvedInst, construct, detect_pkg_manager]

/-- World for the C7 witness: empty config, no poetry or pipenv on the
search path, an explicit environment name. -/
def wC7b : World := { wC7 with fs := ⟨[], []⟩ }

/-- Witness for the amended C7: explicit name wins; with no stored package
manager and both tools absent, pip is resolved; with no explicit directory
the cwd is used. -/
theorem settings_resolution_witness :
    (resolvedInst wC7b none (some "web") none none).envName = "web" ∧
    (resolvedInst wC7b none (some "web") none none).pkgManager = "pip" ∧
    (resolvedInst wC7b none (some "web") none none).envDir = "/home/u/proj" := by
  refine ⟨(settings_resolution wC7b none (some "web") none none).1 (by decide),
          (settings_resolution wC7b none (some "web") none none).2.2.2.2.2.2.2.2.2.2.2
            (by decide) (by decide) (by decide),
          ?_⟩
  have h := (settings_resolution wC7b none (some "web") none none).2.2.2.2.2.2.2.1
    (by decide)
  rw [h]
  decide

/-! ## C9 — empty vs whitespace confirmation answers (corrected) -/

/-- A whitespace character is fixed by `Char.toLower`. -/
theorem toLower_of_space (c : Char) (h : isSpaceChar c = true) :
    c.toLower = c := by
  simp only [isSpaceChar, Bool.or_eq_true, beq_iff_eq] at h
  rcases h with ((h | h) | h) | h <;> subst h <;> decide

/-- Lowercasing fixes a list of whitespace characters. -/
theorem map_toLower_of_space (l : List Char)
    (h : ∀ c ∈ l, isSpaceChar c = true) : l.map Char.toLower = l := by
  induction l with
  | nil => rfl
  | cons c t ih =>
    simp only [List.map_cons]
    rw [toLower_of_space c (h c (by simp)), ih (fun x hx => h x (by simp [hx]))]

/-- A non-empty all-whitespace answer fails the affirmative test of the
`init_env` prompts. -/
theorem answer_space_not_affirmative (ans : String) (hne : ans ≠ "")
    (hsp : ans.data.all isSpaceChar = true) :
    answerAffirmative ans = false := by
  have hlow : pyLower ans = ans := by
    have hm : ans.data.map Char.toLower = ans.data :=
      map_toLower_of_space _ (by simpa [List.all_eq_true] using hsp)
    unfold pyLower
    cases ans
    exact congrArg String.mk hm
  have h1 : ans ≠ "y" := by
    rintro rfl
    exact absurd hsp (by decide)
  have h2 : ans ≠ "yes" := by
    rintro rfl
    exact absurd hsp (by decide)
  have hmem : ans ∉ ["y", "yes", ""] := by simp [h1, h2, hne]
  unfold answerAffirmative
  rw [hlow]
  simpa using hmem

/-- World for the C9 counterexample: a non-empty target directory and a
pending answer of a single space. -/
def wC9 : World :=
  { fs := ⟨[], [("/home/u/proj", true), ("/d9", true)]⟩
    envVars := []
    cwd := "/home/u/proj"
    stdinLines := [" "]
    homeDir := "/home/u"
    sysExecutable := "/usr/bin/python3"
    sysArgv := ["ezvenv", "init"]
    osName := "posix"
    pyMajor := 3
    pyMinor := 11
    pathTools := []
    failingCmds := []
    execFails := []
    roFiles := [] }

/-- Counterexample to C9 as stated: the whitespace-only answer `" "` to the
non-empty-directory prompt is *not* treated as affirmative — `init_env`
aborts with exit code 0 instead of proceeding (the code compares
`answer.lower()` against `["y", "yes", ""]` without stripping,
core.py:375). -/
theorem whitespace_answer_counterexample :
    wC9.stdinLines = [" "] ∧
    (init_env none (some "/d9") none none false true wC9).out = .exited 0 ∧
    Event.print "Initialization aborted."
      ∈ (init_env none (some "/d9") none none false true wC9).tr := by
  decide

/-- C9 (amended): at both `init_env` confirmation prompts an answer that is
exactly empty is treated as affirmative (initialization proceeds: the
directory prompt is followed by entering the directory, the config-overwrite
prompt returns normally), while a non-empty answer consisting only of
whitespace is treated as negative (clean abort, exit code 0). -/
theorem confirmation_empty_vs_whitespace :
    (∀ (w : World) (env_name python_ver config_file : Option String)
        (save_defaults auto_activate : Bool) (d : String) (rest : List String),
      w.getEnv "EZVENV_ALREADY_ACTIVATED" ≠ some "1" → d ≠ "" →
      w.fs.pathExists (w.resolve d) = true → w.fs.isDir (w.resolve d) = true →
      w.fs.dirNonEmpty (w.resolve d) = true → w.stdinLines = "" :: rest →
      Event.chdir d ∈
        (init_env env_name (some d) python_ver config_file save_defaults auto_activate w).tr) ∧
    (∀ (w : World) (env_name python_ver config_file : Option String)
        (save_defaults auto_activate : Bool) (d ans : String) (rest : List String),
      w.getEnv "EZVENV_ALREADY_ACTIVATED" ≠ some "1" → d ≠ "" →
      w.fs.pathExists (w.resolve d) = true → w.fs.isDir (w.resolve d) = true →
      w.fs.dirNonEmpty (w.resolve d) = true → w.stdinLines = ans :: rest →
      ans ≠ "" → ans.data.all isSpaceChar = true →
      (init_env env_name (some d) python_ver config_file save_defaults auto_activate w).out =
          .exited 0 ∧
      Event.print "Initialization aborted." ∈
        (init_env env_name (some d) python_ver config_file save_defaults auto_activate w).tr) ∧
    (∀ (w : World) (cf : String) (rest : List String),
      cf ≠ "" → w.fs.pathExists (w.resolve cf) = true → w.stdinLines = "" :: rest →
      (configCheck (some cf) w).out = .ok cf) ∧
    (∀ (w : World) (cf ans : String) (rest : List String),
      cf ≠ "" → w.fs.pathExists (w.resolve cf) = true → w.stdinLines = ans :: rest →
      ans ≠ "" → ans.data.all isSpaceChar = true →
      (configCheck (some cf) w).out = .exited 0 ∧
      Event.print "Initialization aborted due to existing configuration." ∈
        (configCheck (some cf) w).tr) := by
  refine ⟨?_, ?_, ?_, ?_⟩
  · intro w env_name python_ver config_file save_defaults auto_activate d rest
      hmark hd hex hdir hne hin
    have hmark2 : (w.getEnv "EZVENV_ALREADY_ACTIVATED" == some "1") = false := by
      simpa using hmark
    have htr : (d != "") = true := by simpa using hd
    unfold init_env
    rw [hmark2]
    simp only [Bool.false_eq_true, if_false, pyTruthyS, Option.getD_some]
    rw [htr]
    simp only [if_true]
    unfold dirPrep
    rw [hex]
    simp only [Bool.not_true, Bool.false_eq_true, if_false]
    rw [hdir]
    simp only [Bool.not_true, Bool.false_eq_true, if_false]
    rw [hne]
    simp only [if_true]
    rw [hin]
    simp [answerAffirmative, pyLower, Step.andThen]
  · intro w env_name python_ver config_file save_defaults auto_activate d ans rest
      hmark hd hex hdir hne hin hansne hsp
    have hmark2 : (w.getEnv "EZVENV_ALREADY_ACTIVATED" == some "1") = false := by
      simpa using hmark
    have htr : (d != "") = true := by simpa using hd
    have hans : answerAffirmative ans = false :=
      answer_space_not_affirmative ans hansne hsp
    unfold init_env
    rw [hmark2]
    simp only [Bool.false_eq_true, if_false, pyTruthyS, Option.getD_some]
    rw [htr]
    simp only [if_true]
    unfold dirPrep
    rw [hex]
    simp only [Bool.not_true, Bool.false_eq_true, if_false]
    rw [hdir]
    simp only [Bool.not_true, Bool.false_eq_true, if_false]
    rw [hne]
    simp only [if_true]
    rw [hin]
    simp [hans, Step.andThen]
  · intro w cf rest hcf hex hin
    have htr : (cf != "") = true := by simpa using hcf
    unfold configCheck
    simp only [pyTruthyS, Option.getD_some]
    rw [htr]
    simp only [if_true]
    rw [hex]
    simp only [if_true]
    rw [hin]
    simp [answerAffirmative, pyLower]
  · intro w cf ans rest hcf hex hin hansne hsp
    have htr : (cf != "") = true := by simpa using hcf
    have hans : answerAffirmative ans = false :=
      answer_space_not_affirmative ans hansne hsp
    unfold configCheck
    simp only [pyTruthyS, Option.getD_some]
    rw [htr]
    simp only [if_true]
    rw [hex]
    simp only [if_true]
    rw [hin]
    simp [hans]

/-- World for the C9 witness: empty answer pending. -/
def wC9b : World := { wC9 with stdinLines := [""] }

/-- World for the C9 witness: tab answer pending, with an existing config
file for the overwrite prompt. -/
def wC9c : World :=
  { wC9 with
      stdinLines := ["\t"]
      fs := ⟨[("/home/u/proj/ezvenv.yaml", .yamlDoc Config.empty)],
             [("/home/u/proj", true), ("/d9", true)]⟩ }

/-- Witness for the amended C9: the empty answer enters the directory; a tab
answer aborts the config-overwrite prompt with exit 0. -/
theorem confirmation_empty_vs_whitespace_witness :
    Event.chdir "/d9" ∈ (init_env none (some "/d9") none none false true wC9b).tr ∧
    ((configCheck (some "/home/u/proj/ezvenv.yaml") wC9c).out = .exited 0 ∧
      Event.print "Initialization aborted due to existing configuration." ∈
        (configCheck (some "/home/u/proj/ezvenv.yaml") wC9c).tr) :=
  ⟨confirmation_empty_vs_whitespace.1 wC9b none none none false true "/d9" []
      (by decide) (by decide) (by decide) (by decide) (by decide) (by decide),
   confirmation_empty_vs_whitespace.2.2.2 wC9c "/home/u/proj/ezvenv.yaml" "\t" []
      (by decide) (by decide) (by decide) (by decide) (by decide)⟩

/-! ## C8 — the marker is set before every process-image replacement -/

/-- C8: in every execution of `activate_env`, scanning the emitted trace
left to right, every attempted process-image replacement (`execv`, whether
of the shell or of the new interpreter, and whether it succeeds or raises)
is preceded by setting the activation-marker environment variable to "1";
no replacement is ever attempted with the marker unset. -/
theorem activation_marker_precedes_exec (inst : Inst) (w : World) :
    markerSetBeforeExec false (activate_env inst w).tr = true := by
  by_cases hm : strContainsSub (abspath w.cwd w.sysExecutable)
      (pathJoin (pathJoin w.homeDir ".EZVenv") "EZVenv-Master") = true
  · rcases hstdin : w.stdinLines with _ | ⟨ans, rest⟩
    · simp [activate_env, hm, hstdin, markerSetBeforeExec]
    · by_cases h3 : (pyStrip ans == "3") = true
      · simp [activate_env, hm, hstdin, h3, markerSetBeforeExec]
      · by_cases h1 : (pyStrip ans == "1") = true
        · simp [activate_env, hm, hstdin, h3, h1]
          split <;> simp [markerSetBeforeExec]
        · by_cases h2 : (pyStrip ans == "2") = true
          · simp [activate_env, hm, hstdin, h3, h1, h2]
            split <;> simp [markerSetBeforeExec]
          · simp [activate_env, hm, hstdin, h3, h1, h2, markerSetBeforeExec]
  · by_cases heq : (abspath w.cwd w.sysExecutable !=
        abspath w.cwd (getExecutablePath w inst "python")) = true
    · by_cases hrun :
          runOk w [getExecutablePath w inst "python", "-c", "import ezvenv"] = true
      · simp [activate_env, activateDirect, finishActivate, hm, heq, hrun]
        split <;> simp [markerSetBeforeExec]
      · by_cases hmsp : w.fs.pathExists (w.resolve
            (pathJoin (pathJoin (pathJoin (pathJoin (pathJoin w.homeDir ".EZVenv")
              "EZVenv-Master") "lib")
              ("python" ++ toString w.pyMajor ++ "." ++ toString w.pyMinor))
              "site-packages")) = true
        · simp [activate_env, activateDirect, finishActivate, hm, heq, hrun, hmsp]
          split <;> simp [markerSetBeforeExec]
        · simp [activate_env, activateDirect, hm, heq, hrun, hmsp, markerSetBeforeExec]
    · simp [activate_env, activateDirect, hm, heq, markerSetBeforeExec]

end EZVenv
